import Mathlib

/-!
Shallow embedding of the selector-matching and convergence (sync) engine of
the advok8s-secrets-manager controller, translated from the Go sources
(pkg/selectors/nameselector.go, internal/selectors/labelselector.go,
internal/selectors (ownerselector, targetnamespaces), and
internal/controller/secretcopier_controller.go), together with theorems
checking the specification claims against this embedding.

Modelling conventions:
* Go strings are `String` at the data-model level; the glob engine works on
  `List Char` (one `Char` per rune; the inputs of interest are ASCII).
* A Go `map[string]V` is `Option (List (String × V))`: `none` is the nil
  map, `some entries` a non-nil map given by its entry list (keys pairwise
  distinct for maps that arise from real Go maps).  The nil / non-nil
  distinction is observable in the code's own map-equality helpers.
* Go loops are translated to structural recursion; loops whose measure is
  not structural carry an explicit fuel argument that is always supplied
  large enough to never run out (each iteration consumes at least one
  character of the scrutinee).
* `filepath.Match`'s only error (`ErrBadPattern`) is `Except.error ()`.
-/

namespace SecretsMgr

/-! ## Go map primitives -/

abbrev Str := List Char

abbrev GoMap (V : Type) := Option (List (String × V))

/-- Lookup in an entry list (Go `v, ok := m[k]` on the underlying entries). -/
def entLookup {V : Type} : List (String × V) → String → Option V
  | [], _ => none
  | (k', v) :: rest, k => if k == k' then some v else entLookup rest k

/-- Entries of a Go map; a nil map has no entries. -/
def gmEntries {V : Type} (m : GoMap V) : List (String × V) :=
  m.getD []

/-- Go `v, ok := m[k]`; lookup on the nil map fails. -/
def gmLookup {V : Type} (m : GoMap V) (k : String) : Option V :=
  entLookup (gmEntries m) k

/-- Go `m[k]` in value position: missing keys yield the zero value. -/
def gmGetD {V : Type} (m : GoMap V) (k : String) (dflt : V) : V :=
  (gmLookup m k).getD dflt

/-- Go `len(m)`; the nil map has length 0. -/
def gmLen {V : Type} (m : GoMap V) : Nat :=
  (gmEntries m).length

/-- Go `m[k] = v` on an entry list: replace the entry if the key is present,
append it otherwise. -/
def setEntry {V : Type} : List (String × V) → String → V → List (String × V)
  | [], k, v => [(k, v)]
  | (k', v') :: rest, k, v =>
    if k == k' then (k, v) :: rest else (k', v') :: setEntry rest k v

/-! ## Go path/filepath.Match (Unix), over rune lists -/

/-- Length of the leading chunk of a pattern, as scanned by Go `scanChunk`:
stop at an unbracketed `*`; a backslash escapes the next character; `[` and
`]` toggle the in-character-class state. -/
def chunkLen : Str → Bool → Nat
  | [], _ => 0
  | '\\' :: rest, inr =>
    match rest with
    | [] => 1
    | _ :: rest2 => 2 + chunkLen rest2 inr
  | '[' :: rest, _ => 1 + chunkLen rest true
  | ']' :: rest, _ => 1 + chunkLen rest false
  | '*' :: rest, inr => if inr then 1 + chunkLen rest inr else 0
  | _ :: rest, inr => 1 + chunkLen rest inr

/-- Go `scanChunk`: strip leading `*`s, then split off the chunk up to the
next unbracketed `*`.  Returns (saw a star, chunk, remaining pattern). -/
def scanChunk (p : Str) : Bool × Str × Str :=
  let star := match p with | '*' :: _ => true | _ => false
  let q := p.dropWhile (fun c => c == '*')
  let n := chunkLen q false
  (star, q.take n, q.drop n)

/-- Go `getEsc`: read one possibly-escaped character of a character class. -/
def getEsc : Str → Except Unit (Char × Str)
  | [] => .error ()
  | c :: rest =>
    if c == '-' || c == ']' then .error ()
    else if c == '\\' then
      match rest with
      | [] => .error ()
      | e :: rest2 => .ok (e, rest2)
    else .ok (c, rest)

/-- The range-parsing loop of Go `matchChunk`'s `[` case: consume ranges
until the closing `]`, recording whether rune `r` fell in any range.
`fuel` dominates the number of iterations (each consumes at least one
character of `chunk`). -/
def parseClassRanges (fuel : Nat) (r : Char) (chunk : Str) (nrange : Nat)
    (matched : Bool) : Except Unit (Bool × Str) :=
  match fuel with
  | 0 => .error ()
  | fuel + 1 =>
    match chunk, nrange with
    | ']' :: rest, _ + 1 => .ok (matched, rest)
    | chunk, nrange =>
      match getEsc chunk with
      | .error _ => .error ()
      | .ok (lo, chunk1) =>
        match chunk1 with
        | '-' :: chunk2 =>
          match getEsc chunk2 with
          | .error _ => .error ()
          | .ok (hi, chunk3) =>
            parseClassRanges fuel r chunk3 (nrange + 1)
              (matched || (decide (lo ≤ r) && decide (r ≤ hi)))
        | _ =>
          parseClassRanges fuel r chunk1 (nrange + 1)
            (matched || (decide (lo ≤ r) && decide (r ≤ lo)))

/-- Go `matchChunk`: match a chunk against the start of `s`.  Once `failed`
is set the loop keeps scanning the chunk only to validate it.  Returns
(rest of `s`, ok) or the bad-pattern error.  `fuel` dominates the chunk
length. -/
def matchChunk (fuel : Nat) (chunk s : Str) (failed : Bool) :
    Except Unit (Str × Bool) :=
  match fuel with
  | 0 => .error ()
  | fuel + 1 =>
    match chunk with
    | [] => if failed then .ok ([], false) else .ok (s, true)
    | c :: chunkRest =>
      let failed := failed || s.isEmpty
      if c == '[' then
        let rs : Char × Str :=
          match failed, s with
          | false, ch :: sTail => (ch, sTail)
          | _, _ => (Char.ofNat 0, s)
        let negated := match chunkRest with | '^' :: _ => true | _ => false
        let chunk1 := match chunkRest with | '^' :: t => t | _ => chunkRest
        match parseClassRanges fuel rs.1 chunk1 0 false with
        | .error _ => .error ()
        | .ok (matched, chunk2) =>
          matchChunk fuel chunk2 rs.2 (failed || (matched == negated))
      else if c == '?' then
        if failed then matchChunk fuel chunkRest s failed
        else
          match s with
          | ch :: sTail =>
            matchChunk fuel chunkRest sTail (if ch == '/' then true else failed)
          | [] => matchChunk fuel chunkRest [] true
      else if c == '\\' then
        match chunkRest with
        | [] => .error ()
        | e :: chunkRest2 =>
          if failed then matchChunk fuel chunkRest2 s failed
          else
            match s with
            | ch :: sTail =>
              matchChunk fuel chunkRest2 sTail (if e == ch then failed else true)
            | [] => matchChunk fuel chunkRest2 [] true
      else
        if failed then matchChunk fuel chunkRest s failed
        else
          match s with
          | ch :: sTail =>
            matchChunk fuel chunkRest sTail (if c == ch then failed else true)
          | [] => matchChunk fuel chunkRest [] true

/-- `matchChunk` with enough fuel for its chunk. -/
def matchChunkTop (chunk s : Str) : Except Unit (Str × Bool) :=
  matchChunk (chunk.length + 1) chunk s false

/-- The star retry loop of Go `Match`: try the chunk at each later position
of the name, never skipping past a `/`.  `restEmpty` says whether the chunk
is the last one of the pattern.  Returns the remaining name on success. -/
def starLoop (chunk : Str) (restEmpty : Bool) : Str → Except Unit (Option Str)
  | [] => .ok none
  | c :: nameTail =>
    if c == '/' then .ok none
    else
      match matchChunkTop chunk nameTail with
      | .error _ => .error ()
      | .ok (t, true) =>
        if restEmpty && !t.isEmpty then starLoop chunk restEmpty nameTail
        else .ok (some t)
      | .ok (_, false) => starLoop chunk restEmpty nameTail

/-- The final loop of Go `Match`: before returning a plain non-match, check
that the rest of the pattern is syntactically valid. -/
def validateRest : Nat → Str → Except Unit Bool
  | 0, _ => .error ()
  | fuel + 1, pat =>
    match pat with
    | [] => .ok false
    | _ :: _ =>
      let sc := scanChunk pat
      match matchChunkTop sc.2.1 [] with
      | .error _ => .error ()
      | .ok _ => validateRest fuel sc.2.2

/-- The main loop of Go `Match`.  `fuel` dominates the pattern length. -/
def globMatchLoop : Nat → Str → Str → Except Unit Bool
  | 0, _, _ => .error ()
  | fuel + 1, pat, name =>
    match pat with
    | [] => .ok name.isEmpty
    | _ :: _ =>
      let sc := scanChunk pat
      let star := sc.1
      let chunk := sc.2.1
      let rest := sc.2.2
      if star && chunk.isEmpty then
        .ok (!name.contains '/')
      else
        match matchChunkTop chunk name with
        | .error _ => .error ()
        | .ok (t, ok1) =>
          if ok1 && (t.isEmpty || !rest.isEmpty) then
            globMatchLoop fuel rest t
          else if star then
            match starLoop chunk rest.isEmpty name with
            | .error _ => .error ()
            | .ok (some t2) => globMatchLoop fuel rest t2
            | .ok none => validateRest (rest.length + 1) rest
          else validateRest (rest.length + 1) rest

/-- Go `filepath.Match(pattern, name)` on Unix. -/
def goFilepathMatch (pat name : Str) : Except Unit Bool :=
  globMatchLoop (pat.length + 1) pat name

/-- The way every caller in this code base consumes `filepath.Match`:
`if ok, _ := filepath.Match(item, name); ok` — the error is discarded and
counts as a non-match. -/
def filepathMatchB (pat name : String) : Bool :=
  match goFilepathMatch pat.toList name.toList with
  | .ok b => b
  | .error _ => false

/-! ## pkg/selectors/nameselector.go -/

structure NameSelector where
  matchNames : List String
  deriving DecidableEq

/-- Go `NameSelector.IsEmpty`. -/
def NameSelector.IsEmpty (s : NameSelector) : Bool :=
  s.matchNames.length == 0

/-- Go `strings.HasPrefix(name, "!")`, phrased on the character list so
that it evaluates inside the kernel. -/
def isExcludeName (s : String) : Bool :=
  match s.toList with
  | '!' :: _ => true
  | _ => false

/-- Go `name[1:]` on a name with a `!` at position 0 (`!` is one byte). -/
def dropBang (s : String) : String :=
  match s.toList with
  | '!' :: rest => String.mk rest
  | _ => s

/-- The partition loop of `NameSelector.Matches`: split the configured
names into (exclude names with the `!` stripped, include names),
preserving order within each list. -/
def splitNames : List String → List String × List String
  | [] => ([], [])
  | n :: rest =>
    let p := splitNames rest
    if isExcludeName n then (dropBang n :: p.1, p.2) else (p.1, n :: p.2)

/-- The local closure `globMatchName` of `NameSelector.Matches`. -/
def globMatchName (name : String) (items : List String) : Bool :=
  items.any (fun item => filepathMatchB item name)

/-- Go `NameSelector.Matches`. -/
def NameSelector.Matches (s : NameSelector) (name : String) : Bool :=
  if s.matchNames.length == 0 then false
  else
    let p := splitNames s.matchNames
    if p.2.length > 0 && !globMatchName name p.2 then false
    else if p.1.length > 0 && globMatchName name p.1 then false
    else true

/-! ## internal/selectors: uid, owner and label selectors -/

/-- `UIDSelector` (uidselector.go): the list of UIDs to match on. -/
structure UIDSelector where
  matchUids : List String
  deriving DecidableEq

/-- Go `UIDSelector.IsEmpty`: `len(s.MatchUids) == 0`. -/
def UIDSelector.IsEmpty (s : UIDSelector) : Bool :=
  s.matchUids.length == 0

/-- Go `UIDSelector.Matches`: the loop over `s.MatchUids` returning true
on the first entry equal to the candidate uid — exact membership. -/
def UIDSelector.Matches (s : UIDSelector) (uid : String) : Bool :=
  s.matchUids.contains uid

/-- `selectors.OwnerReference` — the four matched fields of an owner. -/
structure SelOwnerRef where
  apiVersion : String
  kind : String
  name : String
  uid : String
  deriving DecidableEq

/-- `metav1.OwnerReference` as carried on objects; the two pointer flags
are `Option Bool` (`none` is the Go nil pointer). -/
structure MetaOwnerRef where
  apiVersion : String
  kind : String
  name : String
  uid : String
  controller : Option Bool
  blockOwnerDeletion : Option Bool
  deriving DecidableEq

structure OwnerSelector where
  matchOwners : List SelOwnerRef
  deriving DecidableEq

/-- Go `OwnerSelector.IsEmpty`. -/
def OwnerSelector.IsEmpty (s : OwnerSelector) : Bool :=
  s.matchOwners.length == 0

/-- Go `OwnerSelector.Matches`: any candidate owner equal (on the four
fields) to any configured owner. -/
def OwnerSelector.Matches (s : OwnerSelector) (refs : List MetaOwnerRef) : Bool :=
  refs.any (fun o =>
    s.matchOwners.any (fun m =>
      m.apiVersion == o.apiVersion && m.kind == o.kind &&
      m.name == o.name && m.uid == o.uid))

/-- `metav1.LabelSelectorRequirement` (key, operator, values). -/
structure LabelSelectorRequirement where
  key : String
  operator : String
  values : List String
  deriving DecidableEq

structure LabelSelector where
  matchLabels : GoMap String
  matchExpressions : List LabelSelectorRequirement
  deriving DecidableEq

/-- Go `LabelSelector.IsEmpty`. -/
def LabelSelector.IsEmpty (s : LabelSelector) : Bool :=
  gmLen s.matchLabels == 0 && s.matchExpressions.length == 0

/-- The local closure `globMatchLabel` of `LabelSelector.Matches`. -/
def globMatchLabel (label : String) (items : List String) : Bool :=
  items.any (fun item => filepathMatchB item label)

/-- One iteration of the `matchExpressions` loop of `LabelSelector.Matches`
(the Go switch on the operator, in both the key-present and key-absent
branches; an operator outside the four cases falls through the switch and
leaves the result untouched). -/
def matchExprHolds (labels : GoMap String) (e : LabelSelectorRequirement) : Bool :=
  match gmLookup labels e.key with
  | some v =>
    if e.operator == "In" then globMatchLabel v e.values
    else if e.operator == "NotIn" then !globMatchLabel v e.values
    else if e.operator == "Exists" then true
    else if e.operator == "DoesNotExist" then false
    else true
  | none =>
    if e.operator == "In" then false
    else if e.operator == "NotIn" then true
    else if e.operator == "Exists" then false
    else if e.operator == "DoesNotExist" then true
    else true

/-- Go `LabelSelector.Matches`. -/
def LabelSelector.Matches (s : LabelSelector) (labels : GoMap String) : Bool :=
  if gmLen s.matchLabels == 0 && s.matchExpressions.length == 0 then false
  else
    ((gmEntries s.matchLabels).all (fun kv =>
      match gmLookup labels kv.1 with
      | some v => v == kv.2
      | none => false))
    && s.matchExpressions.all (fun e => matchExprHolds labels e)

/-! ## internal/selectors: TargetNamespaces -/

structure TargetNamespaces where
  nameSelector : NameSelector
  uidSelector : UIDSelector
  ownerSelector : OwnerSelector
  labelSelector : LabelSelector
  deriving DecidableEq

/-- A namespace snapshot: the fields of `corev1.Namespace` the code reads. -/
structure K8sNamespace where
  name : String
  uid : String
  labels : GoMap String
  ownerRefs : List MetaOwnerRef
  phase : String
  deriving DecidableEq

/-- Go `TargetNamespaces.Matches`: name check (with the implicit
`!kube-*` default when no name selector is configured), then uid, owner
and label checks, each applied only when its selector is non-empty. -/
def TargetNamespaces.Matches (s : TargetNamespaces) (ns : K8sNamespace) : Bool :=
  (if s.nameSelector.IsEmpty then
    (NameSelector.mk ["!kube-*"]).Matches ns.name
   else s.nameSelector.Matches ns.name)
  && (s.uidSelector.IsEmpty || s.uidSelector.Matches ns.uid)
  && (s.ownerSelector.IsEmpty || s.ownerSelector.Matches ns.ownerRefs)
  && (s.labelSelector.IsEmpty || s.labelSelector.Matches ns.labels)

/-! ## api/v1beta1 types -/

structure SourceSecretRef where
  name : String
  ns : String
  deriving DecidableEq

structure TargetSecretSpec where
  name : String
  labels : GoMap String
  deriving DecidableEq

/-- `SecretCopierRule`; `reclaimPolicy` is the Go string enum
(`"Delete"` / `"Retain"`). -/
structure SecretCopierRule where
  sourceSecret : SourceSecretRef
  targetNamespaces : TargetNamespaces
  targetSecret : TargetSecretSpec
  reclaimPolicy : String
  deriving DecidableEq

/-- The fields of a `SecretCopier` resource the controller reads. -/
structure SecretCopier where
  name : String
  apiVersion : String
  kind : String
  uid : String
  rules : List SecretCopierRule
  deriving DecidableEq

/-! ## Secrets and the store -/

/-- The fields of a `corev1.Secret` the controller reads or writes.
`data` maps keys to byte strings (bytes as `List Nat`). -/
structure Secret where
  name : String
  ns : String
  labels : GoMap String
  annots : GoMap String
  ownerRefs : List MetaOwnerRef
  type : String
  data : GoMap (List Nat)
  deriving DecidableEq

/-- The collaborator store of secrets, keyed by (namespace, name). -/
abbrev Store := List Secret

/-- `Get` on the store. -/
def getSecret (store : Store) (ns name : String) : Option Secret :=
  store.find? (fun s => s.ns == ns && s.name == name)

/-! ## internal/controller/secretcopier_controller.go — sync engine -/

/-- The two ownership annotation keys. -/
def annKeyCopier : String := "secrets-manager.advok8s.io/secret-copier"

def annKeySource : String := "secrets-manager.advok8s.io/secret-name"

/-- Target secret name resolution: `rule.TargetSecret.Name`, defaulting to
the source secret name when empty. -/
def resolvedTargetName (rule : SecretCopierRule) : String :=
  if rule.targetSecret.name == "" then rule.sourceSecret.name
  else rule.targetSecret.name

/-- The effective labels computed in both the create and the update paths:
a fresh map filled with the source secret labels, then overlaid with the
rule's target secret labels.  The result is never the nil map. -/
def mkEffectiveLabels (srcLabels ruleLabels : GoMap String) : GoMap String :=
  some (((gmEntries srcLabels).foldl (fun acc kv => setEntry acc kv.1 kv.2) []
    |> (gmEntries ruleLabels).foldl (fun acc kv => setEntry acc kv.1 kv.2)))

/-- Go `targetSecretManagedBySecretCopier`: both ownership annotations must
match exactly (a missing annotation reads as `""`). -/
def targetSecretManagedBy (copier : SecretCopier) (rule : SecretCopierRule)
    (target : Secret) : Bool :=
  if gmGetD target.annots annKeyCopier "" != copier.name then false
  else if gmGetD target.annots annKeySource ""
      != rule.sourceSecret.ns ++ "/" ++ rule.sourceSecret.name then false
  else true

/-- The local closure `mapStringBytesEqual` of `sourceSecretHasBeenUpdated`:
nil equals nil, nil differs from any non-nil map (even an empty one),
otherwise same length and byte-equal value for every key of `a`. -/
def mapStringBytesEqual (a b : GoMap (List Nat)) : Bool :=
  match a, b with
  | none, none => true
  | none, some _ => false
  | some _, none => false
  | some la, some lb =>
    la.length == lb.length &&
      la.all (fun kv =>
        match entLookup lb kv.1 with
        | some v => v == kv.2
        | none => false)

/-- The local closure `mapStringStringEqual` of
`sourceSecretHasBeenUpdated`, same shape as `mapStringBytesEqual`. -/
def mapStringStringEqual (a b : GoMap String) : Bool :=
  match a, b with
  | none, none => true
  | none, some _ => false
  | some _, none => false
  | some la, some lb =>
    la.length == lb.length &&
      la.all (fun kv =>
        match entLookup lb kv.1 with
        | some v => v == kv.2
        | none => false)

/-- Go `sourceSecretHasBeenUpdated`.  Note the last comparison is the one
the source performs: the SOURCE secret's labels against the computed
effective labels — the target secret's labels are never read here. -/
def sourceSecretHasBeenUpdated (rule : SecretCopierRule)
    (sourceSecret targetSecret : Secret) : Bool :=
  if sourceSecret.type != targetSecret.type then true
  else if !mapStringBytesEqual sourceSecret.data targetSecret.data then true
  else
    let targetSecretLabels :=
      mkEffectiveLabels sourceSecret.labels rule.targetSecret.labels
    if !mapStringStringEqual sourceSecret.labels targetSecretLabels then true
    else false

/-- The secret built by the create path of `copySecretToNamespace`. -/
def newTargetSecret (copier : SecretCopier) (rule : SecretCopierRule)
    (targetNs : String) (src : Secret) : Secret :=
  { name := resolvedTargetName rule
    ns := targetNs
    labels := mkEffectiveLabels src.labels rule.targetSecret.labels
    annots := some
      [(annKeyCopier, copier.name),
       (annKeySource, rule.sourceSecret.ns ++ "/" ++ rule.sourceSecret.name)]
    ownerRefs :=
      if rule.reclaimPolicy == "Delete" then
        [{ apiVersion := copier.apiVersion, kind := copier.kind,
           name := copier.name, uid := copier.uid,
           controller := some true, blockOwnerDeletion := some true }]
      else []
    type := src.type
    data := src.data }

/-- The write a run of `copySecretToNamespace` decides on. -/
inductive SyncAction where
  | noop : SyncAction
  | create : Secret → SyncAction
  | update : Secret → SyncAction
  deriving DecidableEq

/-- The decision logic of Go `copySecretToNamespace`: same-namespace guard,
source fetch (absent source is a no-op), target fetch, then create / the
ownership check / the difference check and update. -/
def syncAction (copier : SecretCopier) (rule : SecretCopierRule)
    (targetNs : String) (store : Store) : SyncAction :=
  if rule.sourceSecret.ns == targetNs then .noop
  else
    match getSecret store rule.sourceSecret.ns rule.sourceSecret.name with
    | none => .noop
    | some src =>
      match getSecret store targetNs (resolvedTargetName rule) with
      | none => .create (newTargetSecret copier rule targetNs src)
      | some target =>
        if !targetSecretManagedBy copier rule target then .noop
        else if sourceSecretHasBeenUpdated rule src target then
          .update { target with
            labels := mkEffectiveLabels src.labels rule.targetSecret.labels
            data := src.data
            type := src.type }
        else .noop

/-- Apply a decided write to the store (`Create` appends, `Update`
replaces the record with the same key). -/
def applyAction (store : Store) : SyncAction → Store
  | .noop => store
  | .create s => store ++ [s]
  | .update s =>
    store.map (fun t => if t.ns == s.ns && t.name == s.name then s else t)

/-- Go `copySecretToNamespace` as a store transformer. -/
def copySecretToNamespace (copier : SecretCopier) (rule : SecretCopierRule)
    (targetNs : String) (store : Store) : Store :=
  applyAction store (syncAction copier rule targetNs store)

/-! ## Reconcile driver (the per-rule namespace loops of `Reconcile`) -/

/-- The namespace filtering of `Reconcile`: drop terminating namespaces. -/
def activeNamespaces (nss : List K8sNamespace) : List K8sNamespace :=
  nss.filter (fun n => n.phase != "Terminating")

/-- The (rule, target namespace) pairs for which one `Reconcile` pass
invokes `copySecretToNamespace`: per rule, the active namespaces other
than the rule's source namespace that match the rule's target selector,
re-checked against the source namespace in the inner loop. -/
def reconcileInvocations (copier : SecretCopier) (nss : List K8sNamespace) :
    List (SecretCopierRule × String) :=
  copier.rules.flatMap (fun rule =>
    let targets :=
      ((activeNamespaces nss).filter (fun n =>
        n.name != rule.sourceSecret.ns && rule.targetNamespaces.Matches n)).map
        (fun n => n.name)
    (targets.filter (fun t => t != rule.sourceSecret.ns)).map
      (fun t => (rule, t)))

/-! ## Specification-side predicates (formalizing the claims' wording) -/

/-- The include patterns of a name-selector pattern list, as the spec
describes them: the patterns without a leading `!`, in order. -/
def includesOf (ps : List String) : List String :=
  ps.filter (fun n => !isExcludeName n)

/-- The exclude patterns of a name-selector pattern list, as the spec
describes them: the patterns with a leading `!`, stripped, in order. -/
def excludesOf (ps : List String) : List String :=
  (ps.filter (fun n => isExcludeName n)).map dropBang

/-- The spec's operator semantics for one label-selector expression
(restricted to the four documented operators): for a present key with
value `v`, `In` needs a glob match against some value, `NotIn` needs no
glob match, `Exists` passes, `DoesNotExist` fails; for an absent key,
`In` and `Exists` fail, `NotIn` and `DoesNotExist` pass. -/
def labelExprSpec (labels : GoMap String) (e : LabelSelectorRequirement) : Prop :=
  match gmLookup labels e.key with
  | some v =>
    (e.operator = "In" → ∃ pat ∈ e.values, filepathMatchB pat v = true) ∧
    (e.operator = "NotIn" → ∀ pat ∈ e.values, filepathMatchB pat v = false) ∧
    (e.operator = "DoesNotExist" → False)
  | none =>
    (e.operator = "In" → False) ∧
    (e.operator = "Exists" → False)

/-! ## Concrete instances used by the witness and evaluation theorems -/

def copierW1 : SecretCopier :=
  ⟨"copier", "secrets-manager.advok8s.io/v1beta1", "SecretCopier", "uid-1", []⟩

def tnsEmptyW : TargetNamespaces := ⟨⟨[]⟩, ⟨[]⟩, ⟨[]⟩, ⟨none, []⟩⟩

def ruleW1 : SecretCopierRule :=
  ⟨⟨"secret", "src"⟩, tnsEmptyW, ⟨"", none⟩, "Delete"⟩

def targetW1 : Secret := ⟨"secret", "dst", none, none, [], "Opaque", none⟩

def copierC2 : SecretCopier :=
  ⟨"copier", "secrets-manager.advok8s.io/v1beta1", "SecretCopier", "uid-1", []⟩

def ruleC2 : SecretCopierRule :=
  ⟨⟨"secret", "src"⟩, tnsEmptyW, ⟨"", none⟩, "Retain"⟩

def srcSecretC2 : Secret := ⟨"secret", "src", none, none, [], "Opaque", none⟩

def store1C2 : Store := copySecretToNamespace copierC2 ruleC2 "dst" [srcSecretC2]

def ruleC3 : SecretCopierRule :=
  ⟨⟨"secret", "src"⟩, tnsEmptyW, ⟨"", none⟩, "Retain"⟩

def srcSecretC3 : Secret :=
  ⟨"secret", "src", some [], none, [], "Opaque", none⟩

def targetSecretC3 : Secret :=
  ⟨"secret", "dst", some [("drifted", "label")],
    some [("secrets-manager.advok8s.io/secret-copier", "copier"),
          ("secrets-manager.advok8s.io/secret-name", "src/secret")],
    [], "Opaque", none⟩

def ruleW7 : SecretCopierRule :=
  ⟨⟨"secret", "src"⟩, tnsEmptyW, ⟨"copy", some [("env", "prod")]⟩, "Delete"⟩

def srcW7 : Secret :=
  ⟨"secret", "src", some [("env", "dev"), ("team", "a")], none, [],
    "Opaque", some [("key", [1, 2])]⟩

/-! ## Sanity examples mirroring the repository's unit tests and the
specification's testable properties -/

example : (NameSelector.mk []).Matches "anything" = false := by decide

example : (NameSelector.mk ["foo"]).Matches "foo" = true := by decide

example : (NameSelector.mk ["foo"]).Matches "bar" = false := by decide

example : (NameSelector.mk ["foo", "bar"]).Matches "bar" = true := by decide

example : (NameSelector.mk ["foo", "bar"]).Matches "qux" = false := by decide

example : (NameSelector.mk ["!foo"]).Matches "foo" = false := by decide

example : (NameSelector.mk ["!foo"]).Matches "other" = true := by decide

example : (NameSelector.mk ["foo", "!bar", "baz"]).Matches "bar" = false := by
  decide

example : (NameSelector.mk ["foo-*"]).Matches "foo-suffix" = true := by decide

example : (LabelSelector.mk none []).Matches (some [("app", "myapp")]) = false := by
  decide

example : (LabelSelector.mk (some [("app", "myapp")]) []).Matches
    (some [("app", "myapp")]) = true := by decide

example : (LabelSelector.mk (some [("app", "otherapp")]) []).Matches
    (some [("app", "myapp")]) = false := by decide

example : (LabelSelector.mk none [⟨"app", "In", ["myapp", "otherapp"]⟩]).Matches
    (some [("app", "myapp"), ("tier", "frontend")]) = true := by decide

example : (LabelSelector.mk none [⟨"app", "NotIn", ["otherapp"]⟩]).Matches
    (some []) = true := by decide

example : (LabelSelector.mk none [⟨"app", "Exists", []⟩]).Matches
    (some [("tier", "frontend")]) = false := by decide

example : (LabelSelector.mk none [⟨"app", "DoesNotExist", []⟩]).Matches
    (some [("tier", "frontend")]) = true := by decide

example : (UIDSelector.mk ["uid1", "uid2", "uid3"]).Matches "uid2" = true := by
  decide

example : (UIDSelector.mk ["uid1", "uid2", "uid3"]).Matches "uid4" = false := by
  decide

example : (OwnerSelector.mk [⟨"v1", "Secret", "my-secret", "1234"⟩]).Matches
    [⟨"v1", "Secret", "my-secret", "1234", none, none⟩] = true := by decide

example : (OwnerSelector.mk [⟨"v1", "Secret", "my-secret", "1234"⟩]).Matches
    [⟨"v1", "ConfigMap", "my-configmap", "5678", none, none⟩] = false := by
  decide

example : filepathMatchB "a*b?c*x" "abxbbxdbxebxczzx" = true := by decide

example : filepathMatchB "a*b?c*x" "abxbbxdbxebxczzy" = false := by decide

example : filepathMatchB "ab[b-d]" "abc" = true := by decide

example : filepathMatchB "ab[^b-d]" "abc" = false := by decide

example : filepathMatchB "a?b" "a/b" = false := by decide

/-! ## Helper lemmas -/

theorem targetSecretManagedBy_eq_false (copier : SecretCopier)
    (rule : SecretCopierRule) (target : Secret)
    (h : gmGetD target.annots annKeyCopier "" ≠ copier.name ∨
      gmGetD target.annots annKeySource "" ≠
        rule.sourceSecret.ns ++ "/" ++ rule.sourceSecret.name) :
    targetSecretManagedBy copier rule target = false := by
  rcases h with h | h
  · simp [targetSecretManagedBy, bne_iff_ne, h]
  · by_cases h1 : gmGetD target.annots annKeyCopier "" = copier.name
    · simp [targetSecretManagedBy, bne_iff_ne, h1, h]
    · simp [targetSecretManagedBy, bne_iff_ne, h1]

/-! ## Claim theorems -/

/-- Claim C1: when an existing target secret's two ownership annotations do
not both match the SecretCopier name and `sourceNamespace/sourceName`
exactly, the sync operation decides no write and leaves the store (hence
the target secret) unchanged. -/
theorem ownership_mismatch_never_overwrites (copier : SecretCopier)
    (rule : SecretCopierRule) (targetNs : String) (store : Store)
    (target : Secret)
    (hget : getSecret store targetNs (resolvedTargetName rule) = some target)
    (hmm : gmGetD target.annots annKeyCopier "" ≠ copier.name ∨
      gmGetD target.annots annKeySource "" ≠
        rule.sourceSecret.ns ++ "/" ++ rule.sourceSecret.name) :
    syncAction copier rule targetNs store = SyncAction.noop ∧
    copySecretToNamespace copier rule targetNs store = store := by
  have hman := targetSecretManagedBy_eq_false copier rule target hmm
  have haction : syncAction copier rule targetNs store = SyncAction.noop := by
    unfold syncAction
    split
    · rfl
    · cases hsrc : getSecret store rule.sourceSecret.ns rule.sourceSecret.name with
      | none => rfl
      | some src => rw [hget]; simp [hman]
  exact ⟨haction, by rw [copySecretToNamespace, haction]; rfl⟩

/-- Witness for C1 at a concrete store: a manually created target secret
with no ownership annotations is left alone. -/
theorem ownership_mismatch_never_overwrites_witness :
    syncAction copierW1 ruleW1 "dst" [targetW1] = SyncAction.noop ∧
    copySecretToNamespace copierW1 ruleW1 "dst" [targetW1] = [targetW1] :=
  ownership_mismatch_never_overwrites copierW1 ruleW1 "dst" [targetW1] targetW1
    (by decide) (Or.inl (by decide))

/-- Claim C8: when the target namespace equals the rule's source namespace
the sync operation decides no write and changes nothing, and a
reconciliation pass never invokes the sync engine for that
(rule, namespace) pair, whatever the namespace list. -/
theorem same_namespace_is_silent_noop (copier : SecretCopier)
    (rule : SecretCopierRule) (targetNs : String) (store : Store)
    (h : targetNs = rule.sourceSecret.ns) :
    syncAction copier rule targetNs store = SyncAction.noop ∧
    copySecretToNamespace copier rule targetNs store = store ∧
    ∀ nss : List K8sNamespace,
      (rule, targetNs) ∉ reconcileInvocations copier nss := by
  have haction : syncAction copier rule targetNs store = SyncAction.noop := by
    simp [syncAction, h]
  refine ⟨haction, by rw [copySecretToNamespace, haction]; rfl, ?_⟩
  intro nss hmem
  simp only [reconcileInvocations, List.mem_flatMap, List.mem_map,
    List.mem_filter] at hmem
  obtain ⟨rule', _, t, ⟨_, hne⟩, heq⟩ := hmem
  obtain ⟨hr, ht⟩ := Prod.mk.injEq .. ▸ heq
  rw [bne_iff_ne] at hne
  exact hne (ht.symm ▸ hr ▸ h)

/-- Witness for C8 at concrete inputs. -/
theorem same_namespace_is_silent_noop_witness :
    syncAction copierW1 ruleW1 "src" [targetW1] = SyncAction.noop ∧
    copySecretToNamespace copierW1 ruleW1 "src" [targetW1] = [targetW1] ∧
    ∀ nss : List K8sNamespace,
      (ruleW1, "src") ∉ reconcileInvocations copierW1 nss :=
  same_namespace_is_silent_noop copierW1 ruleW1 "src" [targetW1] (by decide)

/-- Claim C2 (refuting evaluation): after a first run has created the copy
and with no external change, the second run still issues an Update write —
`sourceSecretHasBeenUpdated` compares the source secret's labels (here the
nil map) with the freshly computed effective-labels map (non-nil, empty),
and those are never equal.  The record state is unchanged by that write,
so only the no-write half of the claim fails. -/
theorem second_run_issues_update :
    syncAction copierC2 ruleC2 "dst" store1C2 =
      SyncAction.update (newTargetSecret copierC2 ruleC2 "dst" srcSecretC2) ∧
    copySecretToNamespace copierC2 ruleC2 "dst" store1C2 = store1C2 := by
  constructor <;> decide

/-- Claim C3 (refuting evaluation): a managed target secret whose labels
have drifted away from the effective labels (type and data equal) is NOT
updated: `sourceSecretHasBeenUpdated` never reads the target's labels, so
the claimed "update iff the (type, data, effective labels) triple differs
from the existing record" is false on the code. -/
theorem label_drift_not_detected :
    sourceSecretHasBeenUpdated ruleC3 srcSecretC3 targetSecretC3 = false ∧
    srcSecretC3.type = targetSecretC3.type ∧
    mapStringBytesEqual srcSecretC3.data targetSecretC3.data = true ∧
    mapStringStringEqual
      (mkEffectiveLabels srcSecretC3.labels ruleC3.targetSecret.labels)
      targetSecretC3.labels = false ∧
    syncAction copierC2 ruleC3 "dst" [srcSecretC3, targetSecretC3] =
      SyncAction.noop := by
  refine ⟨by decide, by decide, by decide, by decide, by decide⟩

theorem splitNames_eq (ps : List String) :
    splitNames ps = (excludesOf ps, includesOf ps) := by
  induction ps with
  | nil => rfl
  | cons n rest ih =>
    simp only [splitNames, ih, excludesOf, includesOf]
    cases h : isExcludeName n
    · simp [h, List.filter_cons]
    · simp [h, List.filter_cons]

/-- Claim C4: name-selector matching — an empty pattern list never
matches; otherwise the candidate matches iff (no include pattern exists or
some include pattern glob-matches it) and (no exclude pattern exists or no
exclude pattern glob-matches it). -/
theorem nameSelector_matches_spec (s : NameSelector) (name : String) :
    (s.matchNames = [] → s.Matches name = false) ∧
    (s.matchNames ≠ [] →
      (s.Matches name = true ↔
        ((includesOf s.matchNames = [] ∨
            ∃ p ∈ includesOf s.matchNames, filepathMatchB p name = true) ∧
         (excludesOf s.matchNames = [] ∨
            ∀ p ∈ excludesOf s.matchNames, filepathMatchB p name = false)))) := by
  constructor
  · intro h
    simp [NameSelector.Matches, h]
  · intro h
    have hlen : (s.matchNames.length == 0) = false := by
      simp [List.length_eq_zero, h]
    simp only [NameSelector.Matches, hlen, splitNames_eq]
    cases ha : (includesOf s.matchNames).any (fun p => filepathMatchB p name) <;>
      cases hb : (excludesOf s.matchNames).any (fun p => filepathMatchB p name) <;>
      by_cases hA : includesOf s.matchNames = [] <;>
      by_cases hB : excludesOf s.matchNames = [] <;>
      simp_all [globMatchName, List.any_eq_true, List.length_pos]

/-- Witness for C4 on a mixed include/exclude selector. -/
theorem nameSelector_matches_spec_witness :
    (NameSelector.mk ["foo", "!bar"]).Matches "foo" = true ↔
      ((includesOf ["foo", "!bar"] = [] ∨
          ∃ p ∈ includesOf ["foo", "!bar"], filepathMatchB p "foo" = true) ∧
       (excludesOf ["foo", "!bar"] = [] ∨
          ∀ p ∈ excludesOf ["foo", "!bar"], filepathMatchB p "foo" = false)) :=
  (nameSelector_matches_spec ⟨["foo", "!bar"]⟩ "foo").2 (by decide)

theorem matchExprHolds_iff_spec (labels : GoMap String)
    (e : LabelSelectorRequirement)
    (hop : e.operator = "In" ∨ e.operator = "NotIn" ∨ e.operator = "Exists" ∨
      e.operator = "DoesNotExist") :
    (matchExprHolds labels e = true ↔ labelExprSpec labels e) := by
  cases hlu : gmLookup labels e.key with
  | some v =>
    rcases hop with h | h | h | h <;>
      simp [matchExprHolds, labelExprSpec, hlu, h, globMatchLabel,
        List.any_eq_true, List.any_eq_false]
  | none =>
    rcases hop with h | h | h | h <;>
      simp [matchExprHolds, labelExprSpec, hlu, h]

theorem entryMatch_iff (labels : GoMap String) (kv : String × String) :
    ((match gmLookup labels kv.1 with
      | some v => v == kv.2
      | none => false) = true) ↔ gmLookup labels kv.1 = some kv.2 := by
  cases h : gmLookup labels kv.1 <;> simp [h]

/-- Claim C5: label-selector matching — an empty selector never matches;
a non-empty selector whose expressions use only the four documented
operators matches iff every matchLabels entry is present with an equal
value and every expression holds under the documented In / NotIn /
Exists / DoesNotExist semantics (glob matching inside In / NotIn). -/
theorem labelSelector_matches_spec (s : LabelSelector) (labels : GoMap String) :
    (s.IsEmpty = true → s.Matches labels = false) ∧
    ((∀ e ∈ s.matchExpressions, e.operator = "In" ∨ e.operator = "NotIn" ∨
        e.operator = "Exists" ∨ e.operator = "DoesNotExist") →
      s.IsEmpty = false →
      (s.Matches labels = true ↔
        ((∀ kv ∈ gmEntries s.matchLabels, gmLookup labels kv.1 = some kv.2) ∧
         (∀ e ∈ s.matchExpressions, labelExprSpec labels e)))) := by
  constructor
  · intro h
    simp only [LabelSelector.IsEmpty] at h
    simp [LabelSelector.Matches, h]
  · intro hops hne
    simp only [LabelSelector.IsEmpty] at hne
    have hexpr : (∀ e ∈ s.matchExpressions, matchExprHolds labels e = true) ↔
        (∀ e ∈ s.matchExpressions, labelExprSpec labels e) := by
      constructor <;> intro hh e he
      · exact (matchExprHolds_iff_spec labels e (hops e he)).mp (hh e he)
      · exact (matchExprHolds_iff_spec labels e (hops e he)).mpr (hh e he)
    simp [LabelSelector.Matches, hne, List.all_eq_true, entryMatch_iff, hexpr]

/-- Witness for C5 on a selector with one exact label and one glob `In`
expression. -/
theorem labelSelector_matches_spec_witness :
    (LabelSelector.mk (some [("app", "myapp")])
        [⟨"tier", "In", ["front*"]⟩]).Matches
      (some [("app", "myapp"), ("tier", "frontend")]) = true ↔
      ((∀ kv ∈ gmEntries (some [("app", "myapp")] : GoMap String),
          gmLookup (some [("app", "myapp"), ("tier", "frontend")] : GoMap String)
            kv.1 = some kv.2) ∧
       (∀ e ∈ [(⟨"tier", "In", ["front*"]⟩ : LabelSelectorRequirement)],
          labelExprSpec (some [("app", "myapp"), ("tier", "frontend")]) e)) :=
  (labelSelector_matches_spec
    (LabelSelector.mk (some [("app", "myapp")]) [⟨"tier", "In", ["front*"]⟩])
    (some [("app", "myapp"), ("tier", "frontend")])).2 (by decide) (by decide)

/-- Claim C9: a matchExpression whose operator is none of In, NotIn,
Exists, DoesNotExist always evaluates as satisfied (key present or
absent), so appending it to a non-empty selector does not change the
match result. -/
theorem unknown_operator_imposes_no_constraint (labels : GoMap String)
    (e : LabelSelectorRequirement)
    (h1 : e.operator ≠ "In") (h2 : e.operator ≠ "NotIn")
    (h3 : e.operator ≠ "Exists") (h4 : e.operator ≠ "DoesNotExist") :
    matchExprHolds labels e = true ∧
    ∀ (ml : GoMap String) (es : List LabelSelectorRequirement),
      LabelSelector.IsEmpty ⟨ml, es⟩ = false →
      (LabelSelector.mk ml (es ++ [e])).Matches labels =
        (LabelSelector.mk ml es).Matches labels := by
  have hh : matchExprHolds labels e = true := by
    cases hlu : gmLookup labels e.key <;>
      simp [matchExprHolds, hlu, h1, h2, h3, h4]
  refine ⟨hh, ?_⟩
  intro ml es hne
  simp only [LabelSelector.IsEmpty] at hne
  simp [LabelSelector.Matches, hne, List.all_append, hh]

/-- Witness for C9 with operator `Foo`. -/
theorem unknown_operator_imposes_no_constraint_witness :
    matchExprHolds (none : GoMap String) ⟨"k", "Foo", []⟩ = true ∧
    (LabelSelector.mk none ([⟨"a", "Exists", []⟩] ++ [⟨"k", "Foo", []⟩])).Matches
        (none : GoMap String) =
      (LabelSelector.mk none [⟨"a", "Exists", []⟩]).Matches none :=
  ⟨(unknown_operator_imposes_no_constraint none ⟨"k", "Foo", []⟩
      (by decide) (by decide) (by decide) (by decide)).1,
   (unknown_operator_imposes_no_constraint none ⟨"k", "Foo", []⟩
      (by decide) (by decide) (by decide) (by decide)).2 none
      [⟨"a", "Exists", []⟩] (by decide)⟩

/-- Claim C6: with an empty name selector the matcher applies the implicit
`!kube-*` exclude, so any namespace whose name glob-matches `kube-*` fails
whatever the other selectors say; and an explicit non-empty name selector
replaces that default, so `kube-system` can match. -/
theorem kube_namespaces_excluded_by_default :
    (∀ (tn : TargetNamespaces) (ns : K8sNamespace),
        tn.nameSelector.matchNames = [] →
        filepathMatchB "kube-*" ns.name = true →
        tn.Matches ns = false) ∧
    (TargetNamespaces.mk ⟨["kube-system"]⟩ ⟨[]⟩ ⟨[]⟩ ⟨none, []⟩).Matches
        ⟨"kube-system", "", none, [], "Active"⟩ = true := by
  constructor
  · intro tn ns h1 h2
    have hemp : tn.nameSelector.IsEmpty = true := by
      simp [NameSelector.IsEmpty, h1]
    have hsplit : splitNames ["!kube-*"] = (["kube-*"], []) := by decide
    have hname : (NameSelector.mk ["!kube-*"]).Matches ns.name = false := by
      simp [NameSelector.Matches, hsplit, globMatchName, h2]
    simp [TargetNamespaces.Matches, hemp, hname]
  · decide

/-- Witness for C6: `kube-system` glob-matches `kube-*` and is rejected by
a matcher whose selectors are all empty. -/
theorem kube_namespaces_excluded_by_default_witness :
    filepathMatchB "kube-*" "kube-system" = true ∧
    tnsEmptyW.Matches ⟨"kube-system", "", none, [], "Active"⟩ = false :=
  ⟨by decide, kube_namespaces_excluded_by_default.1 tnsEmptyW
    ⟨"kube-system", "", none, [], "Active"⟩ rfl (by decide)⟩

theorem matchBracket_errs (s : Str) : goFilepathMatch ['['] s = .error () := by
  cases s <;> rfl

/-- Claim C10: a syntactically invalid glob pattern (the canonical example
`[`) never matches any string, because the match error is discarded as a
non-match: an include list of only invalid patterns admits nothing, an
invalid exclude pattern excludes nothing, and the same holds for the glob
matching inside In / NotIn label expressions. -/
theorem invalid_glob_pattern_never_matches :
    (∀ name : String, filepathMatchB "[" name = false) ∧
    (∀ name : String, (NameSelector.mk ["["]).Matches name = false) ∧
    (∀ name : String, (NameSelector.mk ["!["]).Matches name = true) ∧
    (∀ (labels : GoMap String) (k v : String), gmLookup labels k = some v →
      matchExprHolds labels ⟨k, "In", ["["]⟩ = false ∧
      matchExprHolds labels ⟨k, "NotIn", ["["]⟩ = true) := by
  have hb : ∀ name : String, filepathMatchB "[" name = false := by
    intro name
    unfold filepathMatchB
    rw [show ("[".toList) = ['['] from rfl, matchBracket_errs]
  refine ⟨hb, ?_, ?_, ?_⟩
  · intro name
    have hsplit : splitNames ["["] = ([], ["["]) := by decide
    simp [NameSelector.Matches, hsplit, globMatchName, hb name]
  · intro name
    have hsplit : splitNames ["!["] = (["["], []) := by decide
    simp [NameSelector.Matches, hsplit, globMatchName, hb name]
  · intro labels k v hlu
    constructor <;> simp [matchExprHolds, hlu, globMatchLabel, hb v]

/-- Witness for C10 at a present label key. -/
theorem invalid_glob_pattern_never_matches_witness :
    matchExprHolds (some [("k", "x")]) ⟨"k", "In", ["["]⟩ = false ∧
    matchExprHolds (some [("k", "x")]) ⟨"k", "NotIn", ["["]⟩ = true :=
  invalid_glob_pattern_never_matches.2.2.2 (some [("k", "x")]) "k" "x" (by decide)

theorem entLookup_setEntry {V : Type} (l : List (String × V)) (k : String)
    (v : V) (k' : String) :
    entLookup (setEntry l k v) k' = if k' = k then some v else entLookup l k' := by
  induction l with
  | nil =>
    by_cases h : k' = k <;> simp [setEntry, entLookup, h]
  | cons hd tl ih =>
    obtain ⟨k0, v0⟩ := hd
    by_cases h : k = k0
    · subst h
      by_cases h' : k' = k <;> simp [setEntry, entLookup, h']
    · by_cases h0 : k' = k0 <;> by_cases h' : k' = k <;>
        simp_all [setEntry, entLookup]

theorem entLookup_eq_none {V : Type} (l : List (String × V)) (k : String)
    (h : k ∉ l.map Prod.fst) : entLookup l k = none := by
  induction l with
  | nil => rfl
  | cons hd tl ih =>
    obtain ⟨k0, v0⟩ := hd
    simp only [List.map_cons, List.mem_cons] at h
    push_neg at h
    simp [entLookup, h.1, ih h.2]

theorem foldl_setEntry_lookup {V : Type} (xs : List (String × V))
    (acc : List (String × V)) (k : String)
    (hnd : (xs.map Prod.fst).Nodup) :
    entLookup (xs.foldl (fun a kv => setEntry a kv.1 kv.2) acc) k =
      match entLookup xs k with
      | some v => some v
      | none => entLookup acc k := by
  induction xs generalizing acc with
  | nil => simp [entLookup]
  | cons hd tl ih =>
    obtain ⟨k0, v0⟩ := hd
    simp only [List.map_cons, List.nodup_cons] at hnd
    obtain ⟨hk0, htl⟩ := hnd
    simp only [List.foldl_cons]
    rw [ih (setEntry acc k0 v0) htl]
    by_cases h : k = k0
    · subst h
      rw [entLookup_eq_none tl k hk0]
      simp [entLookup, entLookup_setEntry]
    · have : entLookup ((k0, v0) :: tl) k = entLookup tl k := by
        simp [entLookup, h]
      rw [this]
      cases entLookup tl k <;> simp [entLookup_setEntry, h]

theorem mkEffectiveLabels_lookup (srcLabels ruleLabels : GoMap String)
    (k : String)
    (h1 : ((gmEntries srcLabels).map Prod.fst).Nodup)
    (h2 : ((gmEntries ruleLabels).map Prod.fst).Nodup) :
    gmLookup (mkEffectiveLabels srcLabels ruleLabels) k =
      match gmLookup ruleLabels k with
      | some v => some v
      | none => gmLookup srcLabels k := by
  simp only [gmEntries] at h1 h2
  simp only [mkEffectiveLabels, gmLookup, gmEntries, Option.getD_some]
  rw [foldl_setEntry_lookup _ _ _ h2]
  cases entLookup (ruleLabels.getD []) k with
  | some v => rfl
  | none =>
    rw [foldl_setEntry_lookup _ _ _ h1]
    cases entLookup (srcLabels.getD []) k <;> rfl

/-- Claim C7: when no target record exists (and the source exists, in a
different namespace), the sync operation creates a record whose labels are
the source labels overlaid by the rule's target labels (rule wins on key
collision), whose two ownership annotations are derived from the
SecretCopier name and sourceNamespace/sourceName, whose owner references
contain the SecretCopier iff the reclaim policy is Delete, and whose type
and data are copied verbatim from the source. -/
theorem create_path_contents (copier : SecretCopier) (rule : SecretCopierRule)
    (targetNs : String) (store : Store) (src : Secret)
    (hns : rule.sourceSecret.ns ≠ targetNs)
    (hsrc : getSecret store rule.sourceSecret.ns rule.sourceSecret.name = some src)
    (htgt : getSecret store targetNs (resolvedTargetName rule) = none) :
    syncAction copier rule targetNs store =
      SyncAction.create (newTargetSecret copier rule targetNs src) ∧
    (newTargetSecret copier rule targetNs src).labels =
      mkEffectiveLabels src.labels rule.targetSecret.labels ∧
    (newTargetSecret copier rule targetNs src).annots =
      some [(annKeyCopier, copier.name),
            (annKeySource,
              rule.sourceSecret.ns ++ "/" ++ rule.sourceSecret.name)] ∧
    (newTargetSecret copier rule targetNs src).ownerRefs =
      (if rule.reclaimPolicy == "Delete" then
        [{ apiVersion := copier.apiVersion, kind := copier.kind,
           name := copier.name, uid := copier.uid,
           controller := some true, blockOwnerDeletion := some true }]
       else []) ∧
    (newTargetSecret copier rule targetNs src).type = src.type ∧
    (newTargetSecret copier rule targetNs src).data = src.data ∧
    (((gmEntries src.labels).map Prod.fst).Nodup →
      ((gmEntries rule.targetSecret.labels).map Prod.fst).Nodup →
      ∀ k, gmLookup (newTargetSecret copier rule targetNs src).labels k =
        match gmLookup rule.targetSecret.labels k with
        | some v => some v
        | none => gmLookup src.labels k) := by
  have hbeq : (rule.sourceSecret.ns == targetNs) = false := by
    simp [hns]
  refine ⟨?_, rfl, rfl, rfl, rfl, rfl, ?_⟩
  · simp [syncAction, hbeq, hsrc, htgt]
  · intro h1 h2 k
    exact mkEffectiveLabels_lookup src.labels rule.targetSecret.labels k h1 h2

/-- Witness for C7: the rule-supplied label wins over the source label on
the colliding key `env`. -/
theorem create_path_contents_witness :
    syncAction copierW1 ruleW7 "dst" [srcW7] =
      SyncAction.create (newTargetSecret copierW1 ruleW7 "dst" srcW7) ∧
    gmLookup (newTargetSecret copierW1 ruleW7 "dst" srcW7).labels "env" =
      some "prod" := by
  have h := create_path_contents copierW1 ruleW7 "dst" [srcW7] srcW7
    (by decide) (by decide) (by decide)
  refine ⟨h.1, ?_⟩
  rw [h.2.2.2.2.2.2 (by decide) (by decide) "env"]
  rfl

end SecretsMgr
